import Mathlib

/-!
Shallow embedding of the token-issuance and delayed-delivery core of the
repository (src/app.py and src/app__.py).  Pure data flow is translated
directly; environment reads, random draws, wall-clock reads and HTTP traffic
appear as explicit parameters (oracles).  The two application variants share
the token path verbatim; they differ in `upload_session`, which is embedded
twice below, under the namespaces AppA (src/app.py) and AppB (src/app__.py).
Machine time is modelled as a rational number of seconds.
-/

/-- Python str.strip() whitespace test: the six ASCII whitespace characters
stripped by str.strip() with no argument. -/
def isPySpace (c : Char) : Bool :=
  c == ' ' || c == '\t' || c == '\n' || c == '\r' || c == '\x0b' || c == '\x0c'

/-- Python str.strip() on a character list: drop whitespace from both ends. -/
def pyStripList (l : List Char) : List Char :=
  ((l.dropWhile isPySpace).reverse.dropWhile isPySpace).reverse

/-- Python s.strip(). -/
def pyStrip (s : String) : String := ⟨pyStripList s.data⟩

/-- Python s[:n] (slicing counts code points, as Lean chars do). -/
def pyTake (n : Nat) (s : String) : String := ⟨s.data.take n⟩

/-- JSON values, as returned by response.json(). -/
inductive JVal where
  | str (s : String)
  | num (n : Int)
  | bool (b : Bool)
  | null
  | arr (xs : List JVal)
  | obj (fields : List (String × JVal))

/-- dict.get(k) on a JSON object: None when the key is absent.  Only used at
places where the source has already established the value is a dict. -/
def jGet : JVal → String → Option JVal
  | .obj fs, k => (fs.find? (fun p => p.1 == k)).map (·.2)
  | _, _ => none

/-- Python truthiness of a JSON value. -/
def jTruthy : JVal → Bool
  | .str s => !(s == "")
  | .num n => !(n == 0)
  | .bool b => b
  | .null => false
  | .arr xs => !xs.isEmpty
  | .obj fs => !fs.isEmpty

/-- The body of `if isinstance(v, str) and v: return v` for `v = payload.get(k)`
in `_extract_token`: a non-empty string value stored directly under key k. -/
def getStrItem (j : JVal) (k : String) : Option String :=
  match jGet j k with
  | some (.str s) => if s = "" then none else some s
  | _ => none

/-- The direct keys probed by `_extract_token`. -/
def tokenKeys : List String := ["token", "access_token", "conversation_token"]

/-- The one-level container keys probed by `_extract_token`. -/
def containerKeys : List String := ["conversation", "data", "result"]

/-- `_extract_token` on a payload known to be a dict: direct keys first,
then the recognised containers, each probed with the same key list. -/
def extractTokenDict (payload : JVal) : Option String :=
  match tokenKeys.findSome? (getStrItem payload) with
  | some s => some s
  | none =>
    containerKeys.findSome? fun c =>
      match jGet payload c with
      | some (.obj fs) => tokenKeys.findSome? (getStrItem (.obj fs))
      | _ => none

/-- `_extract_token(payload)`: `payload.get` on a non-dict JSON body raises
AttributeError (uncaught in the source), modelled as `.error ()`. -/
def extract_token : JVal → Except Unit (Option String)
  | .obj fs => .ok (extractTokenDict (.obj fs))
  | _ => .error ()

/-- HTTP verbs used by the fetch loop, in source order POST then GET. -/
inductive Method where
  | POST
  | GET
deriving DecidableEq

/-- The request body/params built by `_get_eleven_token`: the agent id plus,
when truthy, the participant name. -/
structure TokenPayload where
  agent_id : String
  participant_name : Option String
deriving DecidableEq

/-- `base_payload` construction: `if participant_name:` keeps the name only
when it is a non-empty string. -/
def base_payload (agentId : String) (pn : Option String) : TokenPayload :=
  ⟨agentId, match pn with
            | some s => if s = "" then none else some s
            | none => none⟩

/-- Outcome of one `session.request` call, after the transport-level retry
policy has run: either a requests.RequestException, or a response with a
status code and a body that parsed as JSON (`some`) or did not (`none`). -/
inductive HttpResult where
  | exn (name : String)
  | resp (status : Nat) (body : Option JVal)

/-- The upstream network, as seen through `session.request(method, url, ...)`. -/
abbrev Oracle := String → Method → TokenPayload → HttpResult

/-- The shape of one entry appended to `tried` by `_get_eleven_token`. -/
inductive AttemptInfo where
  | requestException (name : String)
  | nonJson (status : Nat)
  | noTokenInPayload (status : Nat)
  | httpError (status : Nat)
deriving DecidableEq

/-- One diagnostic entry of the `tried` list. -/
structure Attempt where
  url : String
  method : Method
  info : AttemptInfo
deriving DecidableEq

/-- One (url, method) iteration of the `_get_eleven_token` loop body:
`.ok (.inl tok)` is the early `return token`, `.ok (.inr a)` appends a
diagnostic and continues, and `.error ()` is the uncaught AttributeError
raised by `_extract_token` on a non-dict JSON body. -/
def attemptStep (oracle : Oracle) (pl : TokenPayload) (url : String) (m : Method) :
    Except Unit (String ⊕ Attempt) :=
  match oracle url m pl with
  | .exn name => .ok (.inr ⟨url, m, .requestException name⟩)
  | .resp status body =>
    if status < 400 then
      match body with
      | none => .ok (.inr ⟨url, m, .nonJson status⟩)
      | some payload =>
        match extract_token payload with
        | .error _ => .error ()
        | .ok (some tok) => .ok (.inl tok)
        | .ok none => .ok (.inr ⟨url, m, .noTokenInPayload status⟩)
    else .ok (.inr ⟨url, m, .httpError status⟩)

/-- Result of running the whole candidate loop. -/
inductive FetchResult where
  | token (tok : String)
  | exhausted (attempts : List Attempt)
  | crashed
deriving DecidableEq

/-- Loop result together with the (url, method) combinations actually
consulted, in order — instrumentation of the source's control flow. -/
structure FetchOut where
  result : FetchResult
  consulted : List (String × Method)
deriving DecidableEq

/-- The nested `for url / for method` loop of `_get_eleven_token`, flattened
over the ordered (url, method) pairs, with `tried` as accumulator. -/
def fetchGo (oracle : Oracle) (pl : TokenPayload) :
    List (String × Method) → List Attempt → FetchOut
  | [], tried => ⟨.exhausted tried, []⟩
  | (u, m) :: rest, tried =>
    match attemptStep oracle pl u m with
    | .error _ => ⟨.crashed, [(u, m)]⟩
    | .ok (.inl tok) => ⟨.token tok, [(u, m)]⟩
    | .ok (.inr a) =>
      let o := fetchGo oracle pl rest (tried ++ [a])
      ⟨o.result, (u, m) :: o.consulted⟩

/-- Overall outcome of `_get_eleven_token`: the returned token, one of the two
configuration RuntimeErrors, the exhaustion RuntimeError with its `tried`
list, or an uncaught exception. -/
inductive TokenOutcome where
  | ok (tok : String)
  | missingApiKey
  | missingAgentId
  | exhausted (attempts : List Attempt)
  | crashed
deriving DecidableEq

/-- The fixed candidate endpoint URLs of `_candidate_urls`. -/
def fixed_token_urls : List String :=
  ["https://api.elevenlabs.io/v1/convai/conversations",
   "https://api.elevenlabs.io/v1/convai/conversation/token",
   "https://api.elevenlabs.io/v1/convai/conversation"]

/-- `_candidate_urls()`: the optional ELEVEN_TOKEN_URL override (or "") first,
then the fixed list. -/
def candidate_urls (overrideUrl : Option String) : List String :=
  (overrideUrl.getD "") :: fixed_token_urls

/-- The ordered (endpoint, method) combinations the loop iterates over:
`[u for u in _candidate_urls() if u]`, each tried with POST then GET. -/
def token_attempt_plan (overrideUrl : Option String) : List (String × Method) :=
  ((candidate_urls overrideUrl).filter (fun u => !(u == ""))).flatMap
    (fun u => [(u, Method.POST), (u, Method.GET)])

/-- The environment configuration consumed by the token fetcher. -/
structure ElevenCfg where
  apiKey : String
  agentId : String
  overrideUrl : Option String

/-- Outcome plus consulted-combination instrumentation for the fetcher. -/
structure TokenFetch where
  outcome : TokenOutcome
  consulted : List (String × Method)

/-- `_get_eleven_token(participant_name)`. -/
def get_eleven_token (cfg : ElevenCfg) (oracle : Oracle) (pn : Option String) :
    TokenFetch :=
  if cfg.apiKey = "" then ⟨.missingApiKey, []⟩
  else if cfg.agentId = "" then ⟨.missingAgentId, []⟩
  else
    let pl := base_payload cfg.agentId pn
    let o := fetchGo oracle pl (token_attempt_plan cfg.overrideUrl) []
    ⟨match o.result with
     | .token t => .ok t
     | .exhausted l => .exhausted l
     | .crashed => .crashed, o.consulted⟩

/-- The module-level _TOKEN_CACHE: participant key to (token, fetch time).
Entries are only ever written with a string token, so the Optional wrapper of
the Python annotation is dropped; the absent-key default is the `none` branch
of the lookup. -/
abbrev TokenCache := List (String × String × ℚ)

/-- `_TOKEN_CACHE.get(key, ...)` — `none` models the (None, datetime.min)
default, which fails the `if token and ...` test. -/
def cacheLookup (cache : TokenCache) (k : String) : Option (String × ℚ) :=
  (cache.find? (fun e => e.1 == k)).map (·.2)

/-- `_TOKEN_CACHE[key] = (token, now)`: dict assignment replaces the entry. -/
def cacheInsert (cache : TokenCache) (k : String) (v : String × ℚ) : TokenCache :=
  (k, v) :: cache.filter (fun e => !(e.1 == k))

/-- Result of one /conversation-token request: the JSON response (a token on
success, the failure on the 502 path), the cache afterwards, and whether
`_get_eleven_token` was invoked. -/
structure ConvOut where
  response : TokenOutcome
  cache : TokenCache
  upstreamCalled : Bool
deriving DecidableEq

/-- The cache key computed by the route: `((args.get("name") or "").strip())`,
then `cache_key = name or ""` (the identity on an already-stripped string). -/
def cache_key_of (nameArg : Option String) : String := pyStrip (nameArg.getD "")

/-- The cache-miss / stale branch of the route: fetch, and on success store
`(token, now)` under the key before returning.  Both utcnow() reads of the
request are modelled as the single instant `now`. -/
def conversation_fetch (cfg : ElevenCfg) (oracle : Oracle) (cache : TokenCache)
    (now : ℚ) (name : String) : ConvOut :=
  let f := get_eleven_token cfg oracle (if name = "" then none else some name)
  match f.outcome with
  | .ok tok => ⟨.ok tok, cacheInsert cache name (tok, now), true⟩
  | e => ⟨e, cache, true⟩

/-- The /conversation-token route handler (identical in both variants). -/
def conversation_token (cfg : ElevenCfg) (oracle : Oracle) (cache : TokenCache)
    (now : ℚ) (nameArg : Option String) : ConvOut :=
  let name := pyStrip (nameArg.getD "")
  match cacheLookup cache name with
  | some (tok, ts) =>
    if tok ≠ "" ∧ now - ts < 55 then ⟨.ok tok, cache, false⟩
    else conversation_fetch cfg oracle cache now name
  | none => conversation_fetch cfg oracle cache now name

/-- Outcome of the Gemini HTTP call in `_call_gemini_mindmap_blueprint`:
`exn` covers a transport exception, a raise_for_status error and a non-JSON
body (all caught by the enclosing try); `json` is a parsed body. -/
inductive GeminiOutcome where
  | exn
  | json (data : JVal)

/-- Python x[0]: first element of a list, first character of a string (as a
one-character string); anything else raises. -/
def jIndex0 : JVal → Except Unit JVal
  | .arr (x :: _) => .ok x
  | .str s =>
    match s.data with
    | c :: _ => .ok (.str ⟨[c]⟩)
    | [] => .error ()
  | _ => .error ()

/-- Python x[k] for a string key: KeyError when absent, TypeError when x is
not a dict — both raise. -/
def jGetItem (j : JVal) (k : String) : Except Unit JVal :=
  match j with
  | .obj fs =>
    match jGet (.obj fs) k with
    | some v => .ok v
    | none => .error ()
  | _ => .error ()

/-- Python x.get(k, "") — AttributeError (raises) when x is not a dict. -/
def pyDictGetStrDefault (j : JVal) (k : String) : Except Unit JVal :=
  match j with
  | .obj _ => .ok ((jGet j k).getD (.str ""))
  | _ => .error ()

/-- The body of the try-block of `_call_gemini_mindmap_blueprint` after a
successful r.json(): `.error ()` is any Python exception raised inside,
`.ok (some text)` is the branch that extracted (stripped) text, `.ok none`
the falsy-condition path leading to the Empty Response fallback. -/
def geminiBody (data : JVal) : Except Unit (Option String) :=
  match data with
  | .obj fs =>
    match jGet (.obj fs) "candidates" with
    | none => .ok none
    | some cv =>
      if jTruthy cv then do
        let c0 ← jIndex0 cv
        let content ← jGetItem c0 "content"
        let parts ← jGetItem content "parts"
        if jTruthy parts then do
          let p0 ← jIndex0 parts
          let tv ← pyDictGetStrDefault p0 "text"
          match tv with
          | .str s => .ok (some (pyStrip s))
          | _ => .error ()
        else .ok none
      else .ok none
  | _ => .error ()

/-- The labelled local fallback text of `_call_gemini_mindmap_blueprint`:
`CONVERSATION SUMMARY (<label>):\n<transcript[:200]>...`. -/
def fbSummary (label : String) (t : String) : String :=
  "CONVERSATION SUMMARY (" ++ label ++ "):\n" ++ pyTake 200 t ++ "..."

/-- `_call_gemini_mindmap_blueprint(transcript)` (identical in both
variants), with the HTTP call abstracted into `outcome`. -/
def call_gemini_mindmap_blueprint (apiKey : String) (outcome : GeminiOutcome)
    (transcript : String) : String :=
  if apiKey = "" then fbSummary "API Key Missing" transcript
  else
    match outcome with
    | .exn => fbSummary "Gemini API Error" transcript
    | .json data =>
      match geminiBody data with
      | .error _ => fbSummary "Gemini API Error" transcript
      | .ok none => fbSummary "Gemini Empty Response" transcript
      | .ok (some text) =>
        if text = "" then fbSummary "empty" transcript else text

/-- The usable-text extraction behind the success path of the summarizer:
`none` whenever the parsed body yields no non-empty text. -/
def geminiExtractOk (data : JVal) : Option String :=
  match geminiBody data with
  | .ok (some s) => if s = "" then none else some s
  | _ => none

/-- The summarizer failure condition of claim C5: missing credentials, an
erroring external call, or a malformed/empty response. -/
def geminiFails (apiKey : String) (outcome : GeminiOutcome) : Prop :=
  apiKey = "" ∨
    match outcome with
    | .exn => True
    | .json data => geminiExtractOk data = none

/-- One record of the module-level `blueprint_storage` dict. -/
structure BlueprintRecord where
  content : String
  email : String
  created : String
  session_id : String
deriving DecidableEq

/-- The module-level `blueprint_storage` dict. -/
abbrev BlueprintStorage := List (String × BlueprintRecord)

/-- `blueprint_storage.get`-style lookup. -/
def storageLookup (s : BlueprintStorage) (k : String) : Option BlueprintRecord :=
  (s.find? (fun p => p.1 == k)).map (·.2)

/-- `blueprint_storage[k] = r`: dict assignment replaces the entry. -/
def storageInsert (s : BlueprintStorage) (k : String) (r : BlueprintRecord) :
    BlueprintStorage :=
  (k, r) :: s.filter (fun p => !(p.1 == k))

/-- Values appearing in the JSON responses of /upload-session. -/
inductive RVal where
  | b (x : Bool)
  | n (x : Nat)
  | s (x : String)
deriving DecidableEq

/-- Key lookup in a JSON response object. -/
def respLookup (resp : List (String × RVal)) (k : String) : Option RVal :=
  (resp.find? (fun p => p.1 == k)).map (·.2)

/-- `random.randint(lo, hi)` (both ends inclusive), driven by a seed. -/
def randint (lo hi seed : Nat) : Nat := lo + seed % (hi + 1 - lo)

/-- The non-deterministic inputs of one /upload-session request: the
timestamp strings, the uuid4 prefix, the randint draw, the request host and
forwarded-proto header, and the summarizer configuration and call outcome. -/
structure UploadDeps where
  stamp : String
  sessionId : String
  seed : Nat
  hostUrl : String
  xfProto : Option String
  geminiKey : String
  gemOutcome : GeminiOutcome
  created : String

/-- Everything one /upload-session request produces: the JSON response, the
storage afterwards, the transcript file written to DATA_DIR, the email link
and the scheduled delay. -/
structure UploadOut where
  response : List (String × RVal)
  storage : BlueprintStorage
  fileName : String
  fileContents : String
  link : String
  delay : Nat
deriving DecidableEq

namespace AppA

/-- /upload-session of src/app.py: no truncation; the success response
carries only `ok` and `scheduled_in_seconds`. -/
def upload_session (deps : UploadDeps) (storage : BlueprintStorage)
    (emailRaw transcriptRaw : String) : Except (Nat × String) UploadOut :=
  let email := pyStrip emailRaw
  let transcript := pyStrip transcriptRaw
  if email = "" then .error (400, "Missing email")
  else if transcript = "" then .error (400, "Missing transcript")
  else
    let fileName := "session_" ++ deps.stamp ++ "_" ++ deps.sessionId ++ ".txt"
    let blueprint := call_gemini_mindmap_blueprint deps.geminiKey deps.gemOutcome transcript
    let blueprint_id := deps.stamp ++ "_" ++ deps.sessionId
    let storage2 := storageInsert storage blueprint_id
      ⟨blueprint, email, deps.created, deps.sessionId⟩
    let link := deps.hostUrl ++ "blueprint/" ++ blueprint_id
    let delay := randint 10 30 deps.seed
    .ok ⟨[("ok", .b true), ("scheduled_in_seconds", .n delay)],
         storage2, fileName, transcript, link, delay⟩

end AppA

/-- Python s.rstrip("/"). -/
def rstripSlashes (s : String) : String :=
  ⟨(s.data.reverse.dropWhile (fun c => c == '/')).reverse⟩

/-- `_absolute_url(path)` of src/app__.py.  The guarded
`replace("http://", "https://", 1)` only fires when the base starts with
`http://`, so it is the prefix swap. -/
def absolute_url (hostUrl : String) (xfProto : Option String) (path : String) :
    String :=
  let base := if xfProto = some "https" ∧ hostUrl.startsWith "http://"
    then "https://" ++ hostUrl.drop 7 else hostUrl
  let p := if path.startsWith "/" then path else "/" ++ path
  rstripSlashes base ++ p

/-- The MAX_TRANSCRIPT_CHARS environment default of src/app__.py. -/
def default_max_transcript_chars : Nat := 20000

namespace AppB

/-- /upload-session of src/app__.py: truncation to maxChars, and a success
response carrying `ok`, `scheduled_in_seconds`, `blueprint_id` and
`blueprint_url`. -/
def upload_session (maxChars : Nat) (deps : UploadDeps)
    (storage : BlueprintStorage) (emailRaw transcriptRaw : String) :
    Except (Nat × String) UploadOut :=
  let email := pyStrip emailRaw
  let transcript0 := pyStrip transcriptRaw
  if email = "" then .error (400, "Missing email")
  else if transcript0 = "" then .error (400, "Missing transcript")
  else
    let transcript := if maxChars < transcript0.length
      then pyTake maxChars transcript0 else transcript0
    let fileName := "session_" ++ deps.stamp ++ "_" ++ deps.sessionId ++ ".txt"
    let blueprint := call_gemini_mindmap_blueprint deps.geminiKey deps.gemOutcome transcript
    let blueprint_id := deps.stamp ++ "_" ++ deps.sessionId
    let storage2 := storageInsert storage blueprint_id
      ⟨blueprint, email, deps.created, deps.sessionId⟩
    let link := absolute_url deps.hostUrl deps.xfProto ("/blueprint/" ++ blueprint_id)
    let delay := randint 10 30 deps.seed
    .ok ⟨[("ok", .b true), ("scheduled_in_seconds", .n delay),
          ("blueprint_id", .s blueprint_id), ("blueprint_url", .s link)],
         storage2, fileName, transcript, link, delay⟩

end AppB

/-- The data the /blueprint/<id> template renders: the record fields named in
the template ({{ email }}, {{ created }}, {{ content }}). -/
structure RenderedPage where
  email : String
  created : String
  content : String
deriving DecidableEq

/-- The /blueprint/<id> route (same behaviour in both variants): 404 when the
id is not in storage, otherwise the page rendered from the stored record. -/
def view_blueprint (storage : BlueprintStorage) (blueprint_id : String) :
    Except Nat RenderedPage :=
  match storageLookup storage blueprint_id with
  | none => .error 404
  | some r => .ok ⟨r.email, r.created, r.content⟩

/-- Modelled from the spec: the phrase "the transcript's first 10 non-blank
lines" of claim C5, used only to compare the claim's wording against the
source's fallback.  Lines are split on newline as Python str.split("\n")
does; a line is blank when it strips to the empty string. -/
def splitLinesList : List Char → List (List Char)
  | [] => [[]]
  | c :: cs =>
    let r := splitLinesList cs
    if c = '\n' then [] :: r
    else
      match r with
      | [] => [[c]]
      | l :: ls => (c :: l) :: ls

/-- Modelled from the spec: the first n non-blank lines of a transcript. -/
def firstNonBlankLines (n : Nat) (t : String) : List String :=
  (((splitLinesList t.data).map (fun l => String.mk l)).filter
    (fun l => !(pyStrip l == ""))).take n

/-- Cache well-formedness for claim C10: every stored token is non-empty. -/
def cacheWF (cache : TokenCache) : Prop := ∀ e ∈ cache, e.2.1 ≠ ""

/-- Shared concrete dependencies used by witnesses and counterexamples. -/
def sampleDeps : UploadDeps :=
  ⟨"20250101T000000", "abcd1234", 0, "http://localhost:5000/", none, "",
   GeminiOutcome.exn, "2025-01-01T00:00:00+00:00"⟩

/-- An upstream that answers every request with a token payload. -/
def sampleOracleOk : Oracle :=
  fun _ _ _ => .resp 200 (some (.obj [("token", .str "tok123")]))

/-- An upstream on which every request raises a connection error. -/
def sampleOracleFail : Oracle :=
  fun _ _ _ => .exn "ConnectionError"

/-- The 20001-character transcript of the C6 counterexample. -/
def longTranscript : String := ⟨List.replicate 20001 'a'⟩

theorem getStrItem_ne {j : JVal} {k s : String} (h : getStrItem j k = some s) :
    s ≠ "" := by
  unfold getStrItem at h
  split at h
  · split at h
    · exact absurd h (by simp)
    · next hne => cases h; exact hne
  · exact absurd h (by simp)

theorem findSome?_getStrItem_ne {j : JVal} {s : String} :
    ∀ l : List String, l.findSome? (getStrItem j) = some s → s ≠ "" := by
  intro l
  induction l with
  | nil => intro h; simp [List.findSome?] at h
  | cons k ks ih =>
    intro h
    cases hk : getStrItem j k with
    | none => rw [List.findSome?_cons, hk] at h; exact ih h
    | some v =>
      rw [List.findSome?_cons, hk] at h
      cases h
      exact getStrItem_ne hk

theorem extractTokenDict_ne {p : JVal} {s : String}
    (h : extractTokenDict p = some s) : s ≠ "" := by
  unfold extractTokenDict at h
  split at h
  · next heq => cases h; exact findSome?_getStrItem_ne _ heq
  · revert h
    generalize containerKeys = cs
    intro h
    induction cs with
    | nil => simp [List.findSome?] at h
    | cons c cs ih =>
      rw [List.findSome?_cons] at h
      split at h
      · next heq =>
        revert heq
        split
        · intro heq; cases h; exact findSome?_getStrItem_ne _ heq
        · intro heq; cases heq
      · exact ih h

theorem extract_token_ok_ne {p : JVal} {s : String}
    (h : extract_token p = .ok (some s)) : s ≠ "" := by
  cases p <;> simp [extract_token] at h
  exact extractTokenDict_ne h

theorem attemptStep_inl_ne {oracle : Oracle} {pl : TokenPayload} {u : String}
    {m : Method} {s : String}
    (h : attemptStep oracle pl u m = .ok (.inl s)) : s ≠ "" := by
  unfold attemptStep at h
  split at h
  · simp at h
  · split at h
    · split at h
      · simp at h
      · split at h
        · simp at h
        · next heq => cases h; exact extract_token_ok_ne heq
        · simp at h
    · simp at h

theorem fetchGo_token_ne {oracle : Oracle} {pl : TokenPayload} {s : String} :
    ∀ (pairs : List (String × Method)) (tried : List Attempt),
      (fetchGo oracle pl pairs tried).result = .token s → s ≠ "" := by
  intro pairs
  induction pairs with
  | nil => intro tried h; simp [fetchGo] at h
  | cons p rest ih =>
    intro tried h
    obtain ⟨u, m⟩ := p
    rw [fetchGo] at h
    split at h
    · simp at h
    · next heq => cases h; exact attemptStep_inl_ne heq
    · exact ih _ h

theorem get_eleven_token_ok_ne {cfg : ElevenCfg} {oracle : Oracle}
    {pn : Option String} {s : String}
    (h : (get_eleven_token cfg oracle pn).outcome = .ok s) : s ≠ "" := by
  unfold get_eleven_token at h
  split at h
  · simp at h
  · split at h
    · simp at h
    · simp only at h
      split at h
      · next heq => cases h; exact fetchGo_token_ne _ _ heq
      · simp at h
      · simp at h

/-- The diagnostic entry a failing (url, method) combination contributes. -/
def failRecOf (oracle : Oracle) (pl : TokenPayload) (p : String × Method) :
    Attempt :=
  match attemptStep oracle pl p.1 p.2 with
  | .ok (.inr a) => a
  | _ => ⟨p.1, p.2, .requestException ""⟩

theorem fetchGo_first_success (oracle : Oracle) (pl : TokenPayload)
    (u : String) (m : Method) (tok : String) (post : List (String × Method)) :
    ∀ (pre : List (String × Method)) (tried : List Attempt),
      (∀ p ∈ pre, ∃ a, attemptStep oracle pl p.1 p.2 = .ok (.inr a)) →
      attemptStep oracle pl u m = .ok (.inl tok) →
      fetchGo oracle pl (pre ++ (u, m) :: post) tried =
        ⟨.token tok, pre ++ [(u, m)]⟩ := by
  intro pre
  induction pre with
  | nil =>
    intro tried _ hs
    simp only [List.nil_append]
    rw [fetchGo, hs]
  | cons p ps ih =>
    intro tried hfail hs
    obtain ⟨pu, pm⟩ := p
    obtain ⟨a, ha⟩ := hfail (pu, pm) (by simp)
    have hrest := ih (tried ++ [a]) (fun q hq => hfail q (by simp [hq])) hs
    simp only [List.cons_append]
    rw [fetchGo, ha]
    simp [hrest]

theorem fetchGo_all_fail (oracle : Oracle) (pl : TokenPayload) :
    ∀ (pairs : List (String × Method)) (tried : List Attempt),
      (∀ p ∈ pairs, ∃ a, attemptStep oracle pl p.1 p.2 = .ok (.inr a)) →
      fetchGo oracle pl pairs tried =
        ⟨.exhausted (tried ++ pairs.map (failRecOf oracle pl)), pairs⟩ := by
  intro pairs
  induction pairs with
  | nil => intro tried _; simp [fetchGo]
  | cons p ps ih =>
    intro tried hfail
    obtain ⟨pu, pm⟩ := p
    obtain ⟨a, ha⟩ := hfail (pu, pm) (by simp)
    have hrest := ih (tried ++ [a]) (fun q hq => hfail q (by simp [hq]))
    rw [fetchGo, ha]
    have hfa : failRecOf oracle pl (pu, pm) = a := by
      simp [failRecOf, ha]
    simp [hrest, hfa, List.append_assoc]

theorem cacheLookup_insert_self (cache : TokenCache) (k : String)
    (v : String × ℚ) : cacheLookup (cacheInsert cache k v) k = some v := by
  simp [cacheLookup, cacheInsert, List.find?]

theorem storageLookup_insert_self (s : BlueprintStorage) (k : String)
    (r : BlueprintRecord) : storageLookup (storageInsert s k r) k = some r := by
  simp [storageLookup, storageInsert, List.find?]

theorem randint_mem (lo hi seed : Nat) (h : lo ≤ hi) :
    lo ≤ randint lo hi seed ∧ randint lo hi seed ≤ hi := by
  unfold randint
  constructor
  · exact Nat.le_add_right lo _
  · have hlt : seed % (hi + 1 - lo) < hi + 1 - lo :=
      Nat.mod_lt _ (by omega)
    omega

theorem geminiFails_fallback {apiKey : String} {outcome : GeminiOutcome}
    (hf : geminiFails apiKey outcome) (t : String) :
    ∃ label, call_gemini_mindmap_blueprint apiKey outcome t = fbSummary label t := by
  by_cases hk : apiKey = ""
  · exact ⟨"API Key Missing", by simp [call_gemini_mindmap_blueprint, hk]⟩
  · rcases hf with hf | hf
    · exact absurd hf hk
    · cases outcome with
      | exn =>
        exact ⟨"Gemini API Error", by simp [call_gemini_mindmap_blueprint, hk]⟩
      | json data =>
        simp only [geminiExtractOk] at hf
        cases hb : geminiBody data with
        | error e =>
          exact ⟨"Gemini API Error",
            by simp [call_gemini_mindmap_blueprint, hk, hb]⟩
        | ok o =>
          cases o with
          | none =>
            exact ⟨"Gemini Empty Response",
              by simp [call_gemini_mindmap_blueprint, hk, hb]⟩
          | some s =>
            rw [hb] at hf
            by_cases hs : s = ""
            · exact ⟨"empty",
                by simp [call_gemini_mindmap_blueprint, hk, hb, hs]⟩
            · exfalso
              have hred : (if s = "" then (none : Option String) else some s) = none := hf
              rw [if_neg hs] at hred
              exact Option.noConfusion hred

theorem cacheWF_insert {cache : TokenCache} {k : String} {v : String × ℚ}
    (hwf : cacheWF cache) (hv : v.1 ≠ "") : cacheWF (cacheInsert cache k v) := by
  intro e he
  simp only [cacheInsert, List.mem_cons, List.mem_filter] at he
  rcases he with rfl | ⟨hmem, -⟩
  · exact hv
  · exact hwf e hmem

theorem conversation_fetch_error_cache {cfg : ElevenCfg} {oracle : Oracle}
    {cache : TokenCache} {now : ℚ} {k : String}
    (hfail : ∀ tok, (get_eleven_token cfg oracle
      (if k = "" then none else some k)).outcome ≠ TokenOutcome.ok tok) :
    (conversation_fetch cfg oracle cache now k).cache = cache := by
  unfold conversation_fetch
  cases hfo : (get_eleven_token cfg oracle (if k = "" then none else some k)).outcome with
  | ok tok => exact absurd hfo (hfail tok)
  | missingApiKey => simp [hfo]
  | missingAgentId => simp [hfo]
  | exhausted l => simp [hfo]
  | crashed => simp [hfo]

theorem conversation_fetch_wf {cfg : ElevenCfg} {oracle : Oracle}
    {cache : TokenCache} {now : ℚ} {k : String} (hwf : cacheWF cache) :
    cacheWF (conversation_fetch cfg oracle cache now k).cache := by
  unfold conversation_fetch
  cases hfo : (get_eleven_token cfg oracle (if k = "" then none else some k)).outcome with
  | ok tok =>
    simp only [hfo]
    exact cacheWF_insert hwf (get_eleven_token_ok_ne hfo)
  | missingApiKey => simp only [hfo]; exact hwf
  | missingAgentId => simp only [hfo]; exact hwf
  | exhausted l => simp only [hfo]; exact hwf
  | crashed => simp only [hfo]; exact hwf

/-- C1: for every cache key k, a token cached for k at time t is returned
without calling upstream on a request at time tNow with tNow - t strictly
below 55 seconds; at tNow - t greater or equal 55 seconds the upstream
fetcher is invoked and, on success, the cache entry for k is overwritten
with the new token and the current timestamp before it is returned. -/
theorem c1_cache_freshness (cfg : ElevenCfg) (oracle : Oracle) (cache : TokenCache)
    (nameArg : Option String) (k tok : String) (t tNow : ℚ)
    (hk : cache_key_of nameArg = k)
    (hcache : cacheLookup cache k = some (tok, t))
    (htok : tok ≠ "") :
    (tNow - t < 55 →
      conversation_token cfg oracle cache tNow nameArg =
        ⟨TokenOutcome.ok tok, cache, false⟩) ∧
    (55 ≤ tNow - t →
      (conversation_token cfg oracle cache tNow nameArg).upstreamCalled = true ∧
      ∀ newTok,
        (get_eleven_token cfg oracle (if k = "" then none else some k)).outcome =
          TokenOutcome.ok newTok →
        conversation_token cfg oracle cache tNow nameArg =
          ⟨TokenOutcome.ok newTok, cacheInsert cache k (newTok, tNow), true⟩ ∧
        cacheLookup (cacheInsert cache k (newTok, tNow)) k = some (newTok, tNow)) := by
  have hdef : conversation_token cfg oracle cache tNow nameArg =
      (if tok ≠ "" ∧ tNow - t < 55 then ⟨TokenOutcome.ok tok, cache, false⟩
       else conversation_fetch cfg oracle cache tNow k) := by
    have h0 : conversation_token cfg oracle cache tNow nameArg =
        match cacheLookup cache (cache_key_of nameArg) with
        | some (tok0, ts) =>
          if tok0 ≠ "" ∧ tNow - ts < 55 then ⟨TokenOutcome.ok tok0, cache, false⟩
          else conversation_fetch cfg oracle cache tNow (cache_key_of nameArg)
        | none => conversation_fetch cfg oracle cache tNow (cache_key_of nameArg) := rfl
    rw [hk, hcache] at h0
    exact h0
  constructor
  · intro hfresh
    rw [hdef, if_pos ⟨htok, hfresh⟩]
  · intro hstale
    have hcond : ¬ (tok ≠ "" ∧ tNow - t < 55) :=
      fun hc => absurd hc.2 (not_lt.mpr hstale)
    rw [hdef, if_neg hcond]
    constructor
    · unfold conversation_fetch
      cases hfo : (get_eleven_token cfg oracle
          (if k = "" then none else some k)).outcome <;> simp [hfo]
    · intro newTok hok
      refine ⟨?_, cacheLookup_insert_self cache k (newTok, tNow)⟩
      simp only [conversation_fetch, hok]

theorem c1_witness :
    conversation_token ⟨"key", "agent", none⟩ sampleOracleOk
        [("alice", "cached-tok", 0)] 50 (some "alice") =
      ⟨TokenOutcome.ok "cached-tok", [("alice", "cached-tok", 0)], false⟩ ∧
    conversation_token ⟨"key", "agent", none⟩ sampleOracleOk
        [("alice", "cached-tok", 0)] 60 (some "alice") =
      ⟨TokenOutcome.ok "tok123",
        cacheInsert [("alice", "cached-tok", 0)] "alice" ("tok123", 60), true⟩ := by
  constructor
  · exact (c1_cache_freshness ⟨"key", "agent", none⟩ sampleOracleOk
      [("alice", "cached-tok", 0)] (some "alice") "alice" "cached-tok" 0 50
      rfl rfl (by decide)).1 (by norm_num)
  · exact (((c1_cache_freshness ⟨"key", "agent", none⟩ sampleOracleOk
      [("alice", "cached-tok", 0)] (some "alice") "alice" "cached-tok" 0 60
      rfl rfl (by decide)).2 (by norm_num)).2 "tok123" rfl).1

/-- C4: an empty participant name and an omitted participant name map to the
identical cache key (the empty string), so the whole request behaves
identically: both share one cache slot. -/
theorem c4_empty_and_omitted_name_share_key (cfg : ElevenCfg) (oracle : Oracle)
    (cache : TokenCache) (now : ℚ) :
    cache_key_of (some "") = "" ∧ cache_key_of none = "" ∧
    conversation_token cfg oracle cache now (some "") =
      conversation_token cfg oracle cache now none :=
  ⟨rfl, rfl, rfl⟩

/-- C10: when the upstream token fetch fails (for any reason, including
missing configuration), the cache is left unchanged — no cache write happens
on the error path — and a request step preserves the invariant that every
entry ever stored in the cache holds a non-empty token string. -/
theorem c10_error_path_preserves_cache (cfg : ElevenCfg) (oracle : Oracle)
    (cache : TokenCache) (now : ℚ) (nameArg : Option String) :
    ((∀ tok, (get_eleven_token cfg oracle
        (if cache_key_of nameArg = "" then none
         else some (cache_key_of nameArg))).outcome ≠ TokenOutcome.ok tok) →
      (conversation_token cfg oracle cache now nameArg).cache = cache) ∧
    (cacheWF cache →
      cacheWF (conversation_token cfg oracle cache now nameArg).cache) := by
  have hsplit : (∃ tok, conversation_token cfg oracle cache now nameArg =
      ⟨TokenOutcome.ok tok, cache, false⟩) ∨
      conversation_token cfg oracle cache now nameArg =
        conversation_fetch cfg oracle cache now (cache_key_of nameArg) := by
    have h0 : conversation_token cfg oracle cache now nameArg =
        match cacheLookup cache (cache_key_of nameArg) with
        | some (tok0, ts) =>
          if tok0 ≠ "" ∧ now - ts < 55 then ⟨TokenOutcome.ok tok0, cache, false⟩
          else conversation_fetch cfg oracle cache now (cache_key_of nameArg)
        | none => conversation_fetch cfg oracle cache now (cache_key_of nameArg) := rfl
    rw [h0]
    split
    · next tok0 ts _ =>
      by_cases hc : tok0 ≠ "" ∧ now - ts < 55
      · rw [if_pos hc]; exact Or.inl ⟨tok0, rfl⟩
      · rw [if_neg hc]; exact Or.inr rfl
    · exact Or.inr rfl
  rcases hsplit with ⟨tok, heq⟩ | heq
  · exact ⟨fun _ => by rw [heq], fun hwf => by rw [heq]; exact hwf⟩
  · exact ⟨fun hfail => by rw [heq]; exact conversation_fetch_error_cache hfail,
      fun hwf => by rw [heq]; exact conversation_fetch_wf hwf⟩

theorem c10_witness :
    (conversation_token ⟨"", "agent", none⟩ sampleOracleFail
        [("k", "t", 0)] 100 (some "k")).cache = [("k", "t", 0)] ∧
    cacheWF (conversation_token ⟨"", "agent", none⟩ sampleOracleFail
        [("k", "t", 0)] 100 (some "k")).cache := by
  have h := c10_error_path_preserves_cache ⟨"", "agent", none⟩ sampleOracleFail
    [("k", "t", 0)] 100 (some "k")
  refine ⟨h.1 ?_, h.2 ?_⟩
  · intro tok hok
    exact TokenOutcome.noConfusion
      (show TokenOutcome.missingApiKey = TokenOutcome.ok tok from hok)
  · intro e he
    simp only [List.mem_singleton] at he
    rw [he]
    decide

theorem flatMap_pairs_length (l : List String) :
    (l.flatMap (fun u => [(u, Method.POST), (u, Method.GET)])).length =
      2 * l.length := by
  induction l with
  | nil => rfl
  | cons a l ih =>
    simp only [List.flatMap_cons, List.length_append, List.length_cons,
      List.length_nil, ih]
    omega

/-- C2: the upstream token fetch walks the candidate endpoints in the fixed
order (override endpoint first when configured, then the fixed URL list),
tries POST before GET on each, and on the first combination from which a
token is extracted it returns that token at once, consulting none of the
remaining combinations. -/
theorem c2_first_success_short_circuit (cfg : ElevenCfg) (oracle : Oracle)
    (pn : Option String) (pre post : List (String × Method)) (u : String)
    (m : Method) (tok : String)
    (hkey : cfg.apiKey ≠ "") (hagent : cfg.agentId ≠ "")
    (hplan : token_attempt_plan cfg.overrideUrl = pre ++ (u, m) :: post)
    (hpre : ∀ p ∈ pre, ∃ a,
      attemptStep oracle (base_payload cfg.agentId pn) p.1 p.2 = .ok (.inr a))
    (hsucc : attemptStep oracle (base_payload cfg.agentId pn) u m = .ok (.inl tok)) :
    (get_eleven_token cfg oracle pn).outcome = TokenOutcome.ok tok ∧
    (get_eleven_token cfg oracle pn).consulted = pre ++ [(u, m)] ∧
    (∀ ov, ov ≠ "" → token_attempt_plan (some ov) =
      (ov :: fixed_token_urls).flatMap
        (fun url => [(url, Method.POST), (url, Method.GET)])) ∧
    token_attempt_plan none =
      fixed_token_urls.flatMap
        (fun url => [(url, Method.POST), (url, Method.GET)]) := by
  have hfg := fetchGo_first_success oracle (base_payload cfg.agentId pn) u m tok
    post pre [] hpre hsucc
  have hget : get_eleven_token cfg oracle pn =
      ⟨TokenOutcome.ok tok, pre ++ [(u, m)]⟩ := by
    unfold get_eleven_token
    rw [if_neg hkey, if_neg hagent]
    simp only [hplan, hfg]
  refine ⟨by rw [hget], by rw [hget], ?_, rfl⟩
  intro ov hov
  have hov' : (ov == "") = false := by
    rw [beq_eq_false_iff_ne]; exact hov
  have hfix : fixed_token_urls.filter (fun x => !(x == "")) = fixed_token_urls := rfl
  simp [token_attempt_plan, candidate_urls, List.filter_cons, hov', hfix]

theorem c2_witness :
    (get_eleven_token ⟨"key", "agent", none⟩ sampleOracleOk none).outcome =
      TokenOutcome.ok "tok123" ∧
    (get_eleven_token ⟨"key", "agent", none⟩ sampleOracleOk none).consulted =
      [("https://api.elevenlabs.io/v1/convai/conversations", Method.POST)] := by
  have h := c2_first_success_short_circuit ⟨"key", "agent", none⟩ sampleOracleOk
    none []
    [("https://api.elevenlabs.io/v1/convai/conversations", Method.GET),
     ("https://api.elevenlabs.io/v1/convai/conversation/token", Method.POST),
     ("https://api.elevenlabs.io/v1/convai/conversation/token", Method.GET),
     ("https://api.elevenlabs.io/v1/convai/conversation", Method.POST),
     ("https://api.elevenlabs.io/v1/convai/conversation", Method.GET)]
    "https://api.elevenlabs.io/v1/convai/conversations" Method.POST "tok123"
    (by decide) (by decide) rfl (by simp) rfl
  exact ⟨h.1, by simpa using h.2.1⟩

/-- C3: when every (endpoint, method) combination of the candidate plan
records a failure, the fetch ends in the exhaustion error and its attempt
diagnostic list has exactly one entry per attempted combination — its length
equals the plan's length, i.e. twice the number of candidate endpoints. -/
theorem c3_exhausted_attempt_count (cfg : ElevenCfg) (oracle : Oracle)
    (pn : Option String)
    (hkey : cfg.apiKey ≠ "") (hagent : cfg.agentId ≠ "")
    (hfail : ∀ p ∈ token_attempt_plan cfg.overrideUrl, ∃ a,
      attemptStep oracle (base_payload cfg.agentId pn) p.1 p.2 = .ok (.inr a)) :
    ∃ attempts : List Attempt,
      (get_eleven_token cfg oracle pn).outcome = TokenOutcome.exhausted attempts ∧
      attempts.length = (token_attempt_plan cfg.overrideUrl).length ∧
      attempts.length =
        2 * ((candidate_urls cfg.overrideUrl).filter (fun x => !(x == ""))).length := by
  have hfg := fetchGo_all_fail oracle (base_payload cfg.agentId pn)
    (token_attempt_plan cfg.overrideUrl) [] hfail
  refine ⟨(token_attempt_plan cfg.overrideUrl).map
    (failRecOf oracle (base_payload cfg.agentId pn)), ?_, by simp, ?_⟩
  · unfold get_eleven_token
    rw [if_neg hkey, if_neg hagent]
    simp only [hfg]
    simp
  · rw [List.length_map]
    exact flatMap_pairs_length _

theorem c3_witness :
    ∃ attempts,
      (get_eleven_token ⟨"key", "agent", none⟩ sampleOracleFail none).outcome =
        TokenOutcome.exhausted attempts ∧ attempts.length = 6 := by
  obtain ⟨l, hl, hlen, -⟩ := c3_exhausted_attempt_count ⟨"key", "agent", none⟩
    sampleOracleFail none (by decide) (by decide)
    (fun p _ => ⟨⟨p.1, p.2, .requestException "ConnectionError"⟩, rfl⟩)
  exact ⟨l, hl, hlen.trans rfl⟩

theorem appA_upload_ok (deps : UploadDeps) (storage : BlueprintStorage)
    (emailRaw transcriptRaw : String)
    (he : pyStrip emailRaw ≠ "") (ht : pyStrip transcriptRaw ≠ "") :
    AppA.upload_session deps storage emailRaw transcriptRaw =
      .ok ⟨[("ok", .b true), ("scheduled_in_seconds", .n (randint 10 30 deps.seed))],
           storageInsert storage (deps.stamp ++ "_" ++ deps.sessionId)
             ⟨call_gemini_mindmap_blueprint deps.geminiKey deps.gemOutcome
                (pyStrip transcriptRaw),
              pyStrip emailRaw, deps.created, deps.sessionId⟩,
           "session_" ++ deps.stamp ++ "_" ++ deps.sessionId ++ ".txt",
           pyStrip transcriptRaw,
           deps.hostUrl ++ "blueprint/" ++ (deps.stamp ++ "_" ++ deps.sessionId),
           randint 10 30 deps.seed⟩ := by
  simp only [AppA.upload_session]
  rw [if_neg he, if_neg ht]

theorem appB_upload_ok (maxChars : Nat) (deps : UploadDeps)
    (storage : BlueprintStorage) (emailRaw transcriptRaw : String)
    (he : pyStrip emailRaw ≠ "") (ht : pyStrip transcriptRaw ≠ "") :
    AppB.upload_session maxChars deps storage emailRaw transcriptRaw =
      .ok ⟨[("ok", .b true), ("scheduled_in_seconds", .n (randint 10 30 deps.seed)),
            ("blueprint_id", .s (deps.stamp ++ "_" ++ deps.sessionId)),
            ("blueprint_url", .s (absolute_url deps.hostUrl deps.xfProto
              ("/blueprint/" ++ (deps.stamp ++ "_" ++ deps.sessionId))))],
           storageInsert storage (deps.stamp ++ "_" ++ deps.sessionId)
             ⟨call_gemini_mindmap_blueprint deps.geminiKey deps.gemOutcome
                (if maxChars < (pyStrip transcriptRaw).length
                 then pyTake maxChars (pyStrip transcriptRaw)
                 else pyStrip transcriptRaw),
              pyStrip emailRaw, deps.created, deps.sessionId⟩,
           "session_" ++ deps.stamp ++ "_" ++ deps.sessionId ++ ".txt",
           (if maxChars < (pyStrip transcriptRaw).length
            then pyTake maxChars (pyStrip transcriptRaw)
            else pyStrip transcriptRaw),
           absolute_url deps.hostUrl deps.xfProto
             ("/blueprint/" ++ (deps.stamp ++ "_" ++ deps.sessionId)),
           randint 10 30 deps.seed⟩ := by
  simp only [AppB.upload_session]
  rw [if_neg he, if_neg ht]

theorem storageLookup_insert_content (s : BlueprintStorage) (k : String)
    (r : BlueprintRecord) :
    (storageLookup (storageInsert s k r) k).map (·.content) = some r.content := by
  rw [storageLookup_insert_self]
  rfl

theorem view_blueprint_insert (s : BlueprintStorage) (k : String)
    (r : BlueprintRecord) :
    view_blueprint (storageInsert s k r) k = .ok ⟨r.email, r.created, r.content⟩ := by
  simp [view_blueprint, storageLookup_insert_self]

/-- C8: intake fails with a 400 ValidationError whenever the supplied email
or the supplied transcript is empty, in both variants: an empty email yields
"Missing email", a present email with an empty transcript yields
"Missing transcript". -/
theorem c8_validation_errors :
    (∀ (deps : UploadDeps) (storage : BlueprintStorage) (t : String),
      AppA.upload_session deps storage "" t = .error (400, "Missing email") ∧
      ∀ maxChars, AppB.upload_session maxChars deps storage "" t =
        .error (400, "Missing email")) ∧
    (∀ (deps : UploadDeps) (storage : BlueprintStorage) (e : String),
      pyStrip e ≠ "" →
      AppA.upload_session deps storage e "" = .error (400, "Missing transcript") ∧
      ∀ maxChars, AppB.upload_session maxChars deps storage e "" =
        .error (400, "Missing transcript")) := by
  constructor
  · exact fun deps storage t => ⟨rfl, fun maxChars => rfl⟩
  · intro deps storage e he
    constructor
    · simp only [AppA.upload_session]
      rw [if_neg he]
      rfl
    · intro maxChars
      simp only [AppB.upload_session]
      rw [if_neg he]
      rfl

theorem c8_witness :
    AppA.upload_session sampleDeps [] "user@example.com" "" =
      .error (400, "Missing transcript") ∧
    AppA.upload_session sampleDeps [] "" "hello" = .error (400, "Missing email") ∧
    AppB.upload_session 20000 sampleDeps [] "user@example.com" "" =
      .error (400, "Missing transcript") ∧
    AppB.upload_session 20000 sampleDeps [] "" "hello" =
      .error (400, "Missing email") :=
  ⟨(c8_validation_errors.2 sampleDeps [] "user@example.com" (by decide)).1,
   (c8_validation_errors.1 sampleDeps [] "hello").1,
   (c8_validation_errors.2 sampleDeps [] "user@example.com" (by decide)).2 20000,
   (c8_validation_errors.1 sampleDeps [] "hello").2 20000⟩

theorem dropWhile_isPySpace_replicate (n : Nat) :
    (List.replicate n 'a').dropWhile isPySpace = List.replicate n 'a' := by
  cases n with
  | zero => rfl
  | succ m =>
    rw [List.replicate_succ, List.dropWhile_cons]
    have ha : isPySpace 'a' = false := rfl
    rw [ha]
    simp

theorem pyStripList_replicate_a (n : Nat) :
    pyStripList (List.replicate n 'a') = List.replicate n 'a' := by
  unfold pyStripList
  rw [dropWhile_isPySpace_replicate, List.reverse_replicate,
      dropWhile_isPySpace_replicate, List.reverse_replicate]

theorem pyStrip_longTranscript : pyStrip longTranscript = longTranscript := by
  show String.mk (pyStripList (List.replicate 20001 'a')) = longTranscript
  rw [pyStripList_replicate_a]
  rfl

theorem longTranscript_length : longTranscript.length = 20001 := by
  show (List.replicate 20001 'a').length = 20001
  exact List.length_replicate _ _

/-- C6 counterexample: src/app.py performs no truncation — intake on a
20001-character transcript (longer than the configured default maximum of
20000) persists it at its full length of 20001 characters, not at the
maximum. -/
theorem c6_counterexample :
    default_max_transcript_chars < longTranscript.length ∧
    ∃ out, AppA.upload_session sampleDeps [] "user@example.com" longTranscript =
      .ok out ∧ out.fileContents.length = 20001 ∧
      out.fileContents.length ≠ default_max_transcript_chars := by
  have hne : pyStrip longTranscript ≠ "" := by
    rw [pyStrip_longTranscript]
    intro h
    have hl := longTranscript_length
    rw [h] at hl
    exact absurd hl (by decide)
  have hok := appA_upload_ok sampleDeps [] "user@example.com" longTranscript
    (by decide) hne
  have hlen : (pyStrip longTranscript).length = 20001 := by
    rw [pyStrip_longTranscript]; exact longTranscript_length
  refine ⟨by rw [longTranscript_length]; decide, _, hok, hlen, ?_⟩
  rw [hlen]
  decide

/-- C6 (amended): the truncation claim holds for the src/app__.py variant
only — there, a transcript whose stripped form exceeds the configured
maximum is silently truncated to exactly that maximum before it is persisted
or summarized; the src/app.py variant performs no truncation at all. -/
theorem c6_truncation (maxChars : Nat) (deps : UploadDeps)
    (storage : BlueprintStorage) (emailRaw transcriptRaw : String)
    (hemail : pyStrip emailRaw ≠ "")
    (hlong : maxChars < (pyStrip transcriptRaw).length) :
    ∃ out, AppB.upload_session maxChars deps storage emailRaw transcriptRaw =
      .ok out ∧
      out.fileContents = pyTake maxChars (pyStrip transcriptRaw) ∧
      out.fileContents.length = maxChars ∧
      (storageLookup out.storage (deps.stamp ++ "_" ++ deps.sessionId)).map
        (·.content) =
        some (call_gemini_mindmap_blueprint deps.geminiKey deps.gemOutcome
          (pyTake maxChars (pyStrip transcriptRaw))) := by
  have ht : pyStrip transcriptRaw ≠ "" := by
    intro h
    rw [h] at hlong
    exact absurd hlong (by simp)
  have hok := appB_upload_ok maxChars deps storage emailRaw transcriptRaw hemail ht
  have hfc : (if maxChars < (pyStrip transcriptRaw).length
      then pyTake maxChars (pyStrip transcriptRaw)
      else pyStrip transcriptRaw) = pyTake maxChars (pyStrip transcriptRaw) :=
    if_pos hlong
  have hlen : (pyTake maxChars (pyStrip transcriptRaw)).length = maxChars := by
    show (List.take maxChars (pyStrip transcriptRaw).data).length = maxChars
    rw [List.length_take]
    exact Nat.min_eq_left (Nat.le_of_lt hlong)
  refine ⟨_, hok, hfc, (congrArg String.length hfc).trans hlen, ?_⟩
  exact (storageLookup_insert_content storage (deps.stamp ++ "_" ++ deps.sessionId)
      ⟨call_gemini_mindmap_blueprint deps.geminiKey deps.gemOutcome
        (if maxChars < (pyStrip transcriptRaw).length
         then pyTake maxChars (pyStrip transcriptRaw)
         else pyStrip transcriptRaw),
       pyStrip emailRaw, deps.created, deps.sessionId⟩).trans
    (congrArg some (congrArg
      (call_gemini_mindmap_blueprint deps.geminiKey deps.gemOutcome) hfc))

theorem c6_witness :
    ∃ out, AppB.upload_session 5 sampleDeps [] "user@example.com" "hello world" =
      .ok out ∧
      out.fileContents = pyTake 5 (pyStrip "hello world") ∧
      out.fileContents.length = 5 := by
  obtain ⟨out, h1, h2, h3, -⟩ := c6_truncation 5 sampleDeps [] "user@example.com"
    "hello world" (by decide) (by decide)
  exact ⟨out, h1, h2, h3⟩

/-- C7 counterexample: in src/app.py a successful intake response contains
neither a blueprintId nor a blueprintUrl field. -/
theorem c7_counterexample :
    ∃ out, AppA.upload_session sampleDeps [] "user@example.com" "hello" =
      .ok out ∧
      respLookup out.response "blueprint_id" = none ∧
      respLookup out.response "blueprint_url" = none :=
  ⟨_, appA_upload_ok sampleDeps [] "user@example.com" "hello"
    (by decide) (by decide), rfl, rfl⟩

/-- C7 (amended): in the src/app__.py variant a successful intake returns
scheduledInSeconds in the closed range [10, 30], the generated blueprintId
and the absolute blueprintUrl of the stored blueprint; the src/app.py
variant returns only ok and a scheduledInSeconds in [10, 30]. -/
theorem c7_intake_response (maxChars : Nat) (deps : UploadDeps)
    (storage : BlueprintStorage) (emailRaw transcriptRaw : String)
    (hemail : pyStrip emailRaw ≠ "") (htr : pyStrip transcriptRaw ≠ "") :
    (∃ out, AppB.upload_session maxChars deps storage emailRaw transcriptRaw =
      .ok out ∧
      respLookup out.response "scheduled_in_seconds" = some (RVal.n out.delay) ∧
      10 ≤ out.delay ∧ out.delay ≤ 30 ∧
      respLookup out.response "blueprint_id" =
        some (RVal.s (deps.stamp ++ "_" ++ deps.sessionId)) ∧
      respLookup out.response "blueprint_url" = some (RVal.s out.link) ∧
      out.link = absolute_url deps.hostUrl deps.xfProto
        ("/blueprint/" ++ (deps.stamp ++ "_" ++ deps.sessionId)) ∧
      (storageLookup out.storage (deps.stamp ++ "_" ++ deps.sessionId)).isSome =
        true) ∧
    (∃ out, AppA.upload_session deps storage emailRaw transcriptRaw = .ok out ∧
      respLookup out.response "scheduled_in_seconds" = some (RVal.n out.delay) ∧
      10 ≤ out.delay ∧ out.delay ≤ 30 ∧
      respLookup out.response "blueprint_id" = none ∧
      respLookup out.response "blueprint_url" = none) := by
  obtain ⟨h10, h30⟩ := randint_mem 10 30 deps.seed (by norm_num)
  constructor
  · refine ⟨_, appB_upload_ok maxChars deps storage emailRaw transcriptRaw
      hemail htr, rfl, h10, h30, rfl, rfl, rfl, ?_⟩
    exact (congrArg Option.isSome (storageLookup_insert_self storage
      (deps.stamp ++ "_" ++ deps.sessionId)
      ⟨call_gemini_mindmap_blueprint deps.geminiKey deps.gemOutcome
        (if maxChars < (pyStrip transcriptRaw).length
         then pyTake maxChars (pyStrip transcriptRaw)
         else pyStrip transcriptRaw),
       pyStrip emailRaw, deps.created, deps.sessionId⟩)).trans rfl
  · exact ⟨_, appA_upload_ok deps storage emailRaw transcriptRaw hemail htr,
      rfl, h10, h30, rfl, rfl⟩

theorem c7_witness :
    ∃ out, AppB.upload_session 20000 sampleDeps [] "user@example.com" "hello" =
      .ok out ∧
      10 ≤ out.delay ∧ out.delay ≤ 30 ∧
      respLookup out.response "blueprint_id" =
        some (RVal.s (sampleDeps.stamp ++ "_" ++ sampleDeps.sessionId)) := by
  obtain ⟨⟨out, h1, -, h10, h30, hbid, -⟩, -⟩ := c7_intake_response 20000 sampleDeps
    [] "user@example.com" "hello" (by decide) (by decide)
  exact ⟨out, h1, h10, h30, hbid⟩

/-- C5 counterexample: the stored fallback content is not determined by the
transcript's first 10 non-blank lines — two transcripts with identical first
10 non-blank lines yield different fallback contents under a summarizer
failure, because the source derives the fallback from transcript[:200]. -/
theorem c5_counterexample :
    firstNonBlankLines 10 "l1\nl2\nl3\nl4\nl5\nl6\nl7\nl8\nl9\nl10" =
      firstNonBlankLines 10 "l1\nl2\nl3\nl4\nl5\nl6\nl7\nl8\nl9\nl10\n\nEXTRA" ∧
    geminiFails "" GeminiOutcome.exn ∧
    call_gemini_mindmap_blueprint "" GeminiOutcome.exn
        "l1\nl2\nl3\nl4\nl5\nl6\nl7\nl8\nl9\nl10" ≠
      call_gemini_mindmap_blueprint "" GeminiOutcome.exn
        "l1\nl2\nl3\nl4\nl5\nl6\nl7\nl8\nl9\nl10\n\nEXTRA" :=
  ⟨by decide, Or.inl rfl, by decide⟩

/-- C5 (amended): the summarizer never fails outward — under any summarizer
failure (missing credentials, an erroring external call, or a malformed or
empty response), intake still succeeds in both variants and the stored
blueprint content equals the deterministic, clearly-labelled fallback built
from the first 200 characters of the processed transcript (not from its
first 10 non-blank lines). -/
theorem c5_summarizer_fallback (maxChars : Nat) (deps : UploadDeps)
    (storage : BlueprintStorage) (emailRaw transcriptRaw : String)
    (hemail : pyStrip emailRaw ≠ "") (htr : pyStrip transcriptRaw ≠ "")
    (hfail : geminiFails deps.geminiKey deps.gemOutcome) :
    (∃ out label,
      AppB.upload_session maxChars deps storage emailRaw transcriptRaw =
        .ok out ∧
      (storageLookup out.storage (deps.stamp ++ "_" ++ deps.sessionId)).map
        (·.content) = some (fbSummary label out.fileContents) ∧
      fbSummary label out.fileContents =
        "CONVERSATION SUMMARY (" ++ label ++ "):\n" ++
          pyTake 200 out.fileContents ++ "...") ∧
    (∃ out label,
      AppA.upload_session deps storage emailRaw transcriptRaw = .ok out ∧
      (storageLookup out.storage (deps.stamp ++ "_" ++ deps.sessionId)).map
        (·.content) = some (fbSummary label out.fileContents) ∧
      fbSummary label out.fileContents =
        "CONVERSATION SUMMARY (" ++ label ++ "):\n" ++
          pyTake 200 out.fileContents ++ "...") := by
  constructor
  · have hok := appB_upload_ok maxChars deps storage emailRaw transcriptRaw hemail htr
    obtain ⟨label, hlabel⟩ := geminiFails_fallback hfail
      (if maxChars < (pyStrip transcriptRaw).length
       then pyTake maxChars (pyStrip transcriptRaw) else pyStrip transcriptRaw)
    refine ⟨_, label, hok, ?_, rfl⟩
    exact (storageLookup_insert_content storage (deps.stamp ++ "_" ++ deps.sessionId)
        ⟨call_gemini_mindmap_blueprint deps.geminiKey deps.gemOutcome
          (if maxChars < (pyStrip transcriptRaw).length
           then pyTake maxChars (pyStrip transcriptRaw) else pyStrip transcriptRaw),
         pyStrip emailRaw, deps.created, deps.sessionId⟩).trans
      (congrArg some hlabel)
  · have hok := appA_upload_ok deps storage emailRaw transcriptRaw hemail htr
    obtain ⟨label, hlabel⟩ := geminiFails_fallback hfail (pyStrip transcriptRaw)
    refine ⟨_, label, hok, ?_, rfl⟩
    exact (storageLookup_insert_content storage (deps.stamp ++ "_" ++ deps.sessionId)
        ⟨call_gemini_mindmap_blueprint deps.geminiKey deps.gemOutcome
          (pyStrip transcriptRaw),
         pyStrip emailRaw, deps.created, deps.sessionId⟩).trans
      (congrArg some hlabel)

theorem c5_witness :
    (∃ out label,
      AppB.upload_session 20000 sampleDeps [] "user@example.com" "hello" =
        .ok out ∧
      (storageLookup out.storage (sampleDeps.stamp ++ "_" ++ sampleDeps.sessionId)).map
        (·.content) = some (fbSummary label out.fileContents)) ∧
    (∃ out label,
      AppA.upload_session sampleDeps [] "user@example.com" "hello" = .ok out ∧
      (storageLookup out.storage (sampleDeps.stamp ++ "_" ++ sampleDeps.sessionId)).map
        (·.content) = some (fbSummary label out.fileContents)) := by
  obtain ⟨⟨outB, labelB, hB1, hB2, -⟩, outA, labelA, hA1, hA2, -⟩ :=
    c5_summarizer_fallback 20000 sampleDeps [] "user@example.com" "hello"
      (by decide) (by decide) (Or.inl rfl)
  exact ⟨⟨outB, labelB, hB1, hB2⟩, outA, labelA, hA1, hA2⟩

/-- C9: viewBlueprint on an id absent from the store is a 404; viewBlueprint
on the id just created by a (valid) intake renders a page whose content
equals exactly what the summarizer client (or its fallback) produced and
stored for that id — in both variants. -/
theorem c9_view_blueprint :
    (∀ (storage : BlueprintStorage) (bid : String),
      storageLookup storage bid = none →
      view_blueprint storage bid = Except.error 404) ∧
    (∀ (maxChars : Nat) (deps : UploadDeps) (storage : BlueprintStorage)
       (emailRaw transcriptRaw : String),
      pyStrip emailRaw ≠ "" → pyStrip transcriptRaw ≠ "" →
      ∃ out page,
        AppB.upload_session maxChars deps storage emailRaw transcriptRaw =
          .ok out ∧
        view_blueprint out.storage (deps.stamp ++ "_" ++ deps.sessionId) =
          .ok page ∧
        page.content = call_gemini_mindmap_blueprint deps.geminiKey
          deps.gemOutcome out.fileContents ∧
        (storageLookup out.storage (deps.stamp ++ "_" ++ deps.sessionId)).map
          (·.content) = some page.content) ∧
    (∀ (deps : UploadDeps) (storage : BlueprintStorage)
       (emailRaw transcriptRaw : String),
      pyStrip emailRaw ≠ "" → pyStrip transcriptRaw ≠ "" →
      ∃ out page,
        AppA.upload_session deps storage emailRaw transcriptRaw = .ok out ∧
        view_blueprint out.storage (deps.stamp ++ "_" ++ deps.sessionId) =
          .ok page ∧
        page.content = call_gemini_mindmap_blueprint deps.geminiKey
          deps.gemOutcome out.fileContents ∧
        (storageLookup out.storage (deps.stamp ++ "_" ++ deps.sessionId)).map
          (·.content) = some page.content) := by
  refine ⟨?_, ?_, ?_⟩
  · intro storage bid h
    simp [view_blueprint, h]
  · intro maxChars deps storage emailRaw transcriptRaw he ht
    refine ⟨_, ⟨pyStrip emailRaw, deps.created,
      call_gemini_mindmap_blueprint deps.geminiKey deps.gemOutcome
        (if maxChars < (pyStrip transcriptRaw).length
         then pyTake maxChars (pyStrip transcriptRaw)
         else pyStrip transcriptRaw)⟩,
      appB_upload_ok maxChars deps storage emailRaw transcriptRaw he ht,
      ?_, rfl, ?_⟩
    · exact view_blueprint_insert storage (deps.stamp ++ "_" ++ deps.sessionId)
        ⟨call_gemini_mindmap_blueprint deps.geminiKey deps.gemOutcome
          (if maxChars < (pyStrip transcriptRaw).length
           then pyTake maxChars (pyStrip transcriptRaw)
           else pyStrip transcriptRaw),
         pyStrip emailRaw, deps.created, deps.sessionId⟩
    · exact storageLookup_insert_content storage
        (deps.stamp ++ "_" ++ deps.sessionId)
        ⟨call_gemini_mindmap_blueprint deps.geminiKey deps.gemOutcome
          (if maxChars < (pyStrip transcriptRaw).length
           then pyTake maxChars (pyStrip transcriptRaw)
           else pyStrip transcriptRaw),
         pyStrip emailRaw, deps.created, deps.sessionId⟩
  · intro deps storage emailRaw transcriptRaw he ht
    refine ⟨_, ⟨pyStrip emailRaw, deps.created,
      call_gemini_mindmap_blueprint deps.geminiKey deps.gemOutcome
        (pyStrip transcriptRaw)⟩,
      appA_upload_ok deps storage emailRaw transcriptRaw he ht, ?_, rfl, ?_⟩
    · exact view_blueprint_insert storage (deps.stamp ++ "_" ++ deps.sessionId)
        ⟨call_gemini_mindmap_blueprint deps.geminiKey deps.gemOutcome
          (pyStrip transcriptRaw),
         pyStrip emailRaw, deps.created, deps.sessionId⟩
    · exact storageLookup_insert_content storage
        (deps.stamp ++ "_" ++ deps.sessionId)
        ⟨call_gemini_mindmap_blueprint deps.geminiKey deps.gemOutcome
          (pyStrip transcriptRaw),
         pyStrip emailRaw, deps.created, deps.sessionId⟩

theorem c9_witness :
    view_blueprint [] "missing-id" = Except.error 404 ∧
    ∃ out page,
      AppB.upload_session 20000 sampleDeps [] "user@example.com" "hello" =
        .ok out ∧
      view_blueprint out.storage (sampleDeps.stamp ++ "_" ++ sampleDeps.sessionId) =
        .ok page ∧
      page.content = call_gemini_mindmap_blueprint sampleDeps.geminiKey
        sampleDeps.gemOutcome out.fileContents := by
  refine ⟨c9_view_blueprint.1 [] "missing-id" rfl, ?_⟩
  obtain ⟨out, page, h1, h2, h3, -⟩ := c9_view_blueprint.2.1 20000 sampleDeps []
    "user@example.com" "hello" (by decide) (by decide)
  exact ⟨out, page, h1, h2, h3⟩
